import Mathlib

/-
Verification of the rockpi-penta daemon core logic.

Shallow embedding of the three subsystems of the daemon:
  * the fan duty controller (misc.py: FAN_DUTY_OFF, FAN_DUTY_ON, lv2dc,
    duty2dc, fan_temp2dc),
  * the configuration loader (misc.py: read_conf),
  * the button gesture classifier (misc.py: read_key_events),
  * the page scheduler (oled.py: slider, refresh, auto_slider).

Temperatures, durations and timestamps are modelled as rationals,
matching the exact decimal arithmetic of the source constants.
-/

namespace RockPi

/-! ## Fan controller (misc.py lines 24-27 and 191-203) -/

/-- Source constant FAN_DUTY_OFF = 0.0 (misc.py line 24). -/
def FAN_DUTY_OFF : ℚ := 0

/-- Source constant FAN_DUTY_ON = 1.0 (misc.py line 25). -/
def FAN_DUTY_ON : ℚ := 1

/-- Source lv2dc = OrderedDict({lv3: 1.0, lv2: 0.75, lv1: 0.5, lv0: 0.25})
(misc.py line 26), kept in its iteration order, highest level first. -/
def lv2dc : List (String × ℚ) :=
  [("lv3", 1), ("lv2", 0.75), ("lv1", 0.5), ("lv0", 0.25)]

/-- Source duty2dc = lambda x: 1.0 - x (misc.py line 27). -/
def duty2dc (x : ℚ) : ℚ := 1 - x

/-- The fan section of the configuration: the four temperature thresholds
conf[fan][lv0..lv3] read by fan_temp2dc. -/
structure FanConf where
  lv0 : ℚ
  lv1 : ℚ
  lv2 : ℚ
  lv3 : ℚ
deriving DecidableEq, Repr

/-- Lookup conf[fan][lv] by level name, as fan_temp2dc does. -/
def fanLookup (c : FanConf) (lv : String) : ℚ :=
  if lv = "lv3" then c.lv3
  else if lv = "lv2" then c.lv2
  else if lv = "lv1" then c.lv1
  else c.lv0

/-- The for-loop of fan_temp2dc (misc.py lines 193-197): result starts at
FAN_DUTY_OFF, the first level in lv2dc order whose threshold is satisfied
by t sets result and breaks. -/
def fanFirstMatch (c : FanConf) (t : ℚ) : List (String × ℚ) → ℚ
  | [] => FAN_DUTY_OFF
  | (lv, dc) :: rest => if fanLookup c lv ≤ t then dc else fanFirstMatch c t rest

/-- Source fan_temp2dc (misc.py lines 191-203): the first-match result is
passed through duty2dc, so the RETURNED value is the inverted fraction
1 - result. -/
def fan_temp2dc (c : FanConf) (t : ℚ) : ℚ :=
  duty2dc (fanFirstMatch c t lv2dc)

/-- The default fan thresholds from the failure branch of read_conf
(misc.py lines 89-92): lv0 35, lv1 40, lv2 45, lv3 50. -/
def defaultFanConf : FanConf := ⟨35, 40, 45, 50⟩

/-- Modelled from the spec words (refinement reference for C8): iterate the
levels strictly highest-first (lv3, lv2, lv1, lv0); the first level whose
threshold is less than or equal to the temperature determines the duty
fraction, with no blending; if none match the off fraction is used. -/
def fanDutySpec (c : FanConf) (t : ℚ) : ℚ :=
  duty2dc (if c.lv3 ≤ t then 1
    else if c.lv2 ≤ t then 0.75
    else if c.lv1 ≤ t then 0.5
    else if c.lv0 ≤ t then 0.25
    else FAN_DUTY_OFF)

/-! ## Configuration loader (misc.py lines 57-106) -/

/-- The configuration record built by read_conf. Fields mirror the keys
set in misc.py lines 64-84 and 89-104. The disk field is an Option: the
failure branch never assigns conf[disk], so it is absent (none) there. -/
structure Conf where
  fan_lv0 : ℚ
  fan_lv1 : ℚ
  fan_lv2 : ℚ
  fan_lv3 : ℚ
  key_click : String
  key_twice : String
  key_press : String
  time_twice : ℚ
  time_press : ℚ
  slider_auto : Bool
  slider_time : ℚ
  oled_rotate : Bool
  oled_ftemp : Bool
  disk : Option (List String)
deriving DecidableEq, Repr

/-- The ConfigParser collaborator, abstracted: each getter either returns a
parsed value or raises (Except.error), exactly as cfg.getfloat, cfg.get and
cfg.getboolean may raise inside the try block of read_conf. The disk extra
getter carries a fallback and is total. -/
structure CfgFile where
  getfloat : String → String → Except Unit ℚ
  getStr : String → String → Except Unit String
  getboolean : String → String → Except Unit Bool
  getFallback : String → String → String → String

/-- The try block of read_conf (misc.py lines 60-84): reads every field in
source order; any raising getter aborts the whole block with an error. -/
def parse_conf (cfg : CfgFile) : Except Unit Conf := do
  let lv0 ← cfg.getfloat "fan" "lv0"
  let lv1 ← cfg.getfloat "fan" "lv1"
  let lv2 ← cfg.getfloat "fan" "lv2"
  let lv3 ← cfg.getfloat "fan" "lv3"
  let click ← cfg.getStr "key" "click"
  let twice ← cfg.getStr "key" "twice"
  let press ← cfg.getStr "key" "press"
  let t_twice ← cfg.getfloat "time" "twice"
  let t_press ← cfg.getfloat "time" "press"
  let s_auto ← cfg.getboolean "slider" "auto"
  let s_time ← cfg.getfloat "slider" "time"
  let o_rot ← cfg.getboolean "oled" "rotate"
  let o_ft ← cfg.getboolean "oled" "f-temp"
  let extra := cfg.getFallback "disk" "extra" ""
  let disks := if extra = "" then [] else extra.splitOn ","
  pure ⟨lv0, lv1, lv2, lv3, click, twice, press, t_twice, t_press,
    s_auto, s_time, o_rot, o_ft, some disks⟩

/-- The except branch of read_conf (misc.py lines 86-104): the documented
defaults. The disk key is not assigned there, hence none. -/
def default_conf : Conf :=
  ⟨35, 40, 45, 50, "slider", "switch", "none", 0.7, 1.8, true, 10,
    false, false, none⟩

/-- Source read_conf (misc.py lines 57-106): try the parse; on any raised
exception fall back to the documented defaults. Never propagates the error. -/
def read_conf (cfg : CfgFile) : Conf :=
  match parse_conf cfg with
  | .ok c => c
  | .error _ => default_conf

/-- A configuration source whose getters all raise, driving read_conf into
its failure branch. -/
def failCfg : CfgFile :=
  ⟨fun _ _ => .error (), fun _ _ => .error (), fun _ _ => .error (),
    fun _ _ fb => fb⟩

/-! ## Gesture classifier (misc.py lines 109-161)

The generator read_key_events is a while-True loop around a blocking
wait_edge_events(wait) call. We embed it as a function over a finite
timed trace: the input is a list of (timestamp, edge) pairs in arrival
order; the clock now records the instant the current wait began. With an
armed wait of w seconds, an edge stamped t is delivered when t is at most
now + w, otherwise the wait times out at now + w first (the loop then
re-enters wait_edge_events with wait = None and picks the edge up). The
output is the list of yielded gesture strings, each stamped with the time
it is yielded, together with the final loop state. -/

/-- An electrical edge: FALLING_EDGE is a press, RISING_EDGE a release. -/
inductive Edge
  | falling
  | rising
deriving DecidableEq, Repr

/-- The loop state of read_key_events: click_count, wait and
ignore_release (misc.py lines 129-131). -/
structure KeyState where
  click_count : ℕ
  wait : Option ℚ
  ignore_release : Bool
deriving DecidableEq, Repr

/-- The initial loop state: click_count = 0, wait = None,
ignore_release = False (misc.py lines 129-131). -/
def keyInit : KeyState := ⟨0, none, false⟩

/-- Gesture string yielded for a single click (misc.py line 114). -/
def event_single : String := "click"

/-- Gesture string yielded for a double click (misc.py line 115). -/
def event_double : String := "twice"

/-- Gesture string yielded for a long press (misc.py line 116). -/
def event_long : String := "press"

/-- The timeout branch of the loop (misc.py lines 134-142): when the armed
wait expires at instant tm, click_count 0 yields a long press (and arms
ignore_release), click_count 1 yields a single click. -/
def timeoutYields (s : KeyState) (tm : ℚ) : List (ℚ × String) :=
  (if s.click_count = 0 then [(tm, event_long)] else []) ++
    (if s.click_count = 1 then [(tm, event_single)] else [])

/-- The state after the timeout branch: click_count reset to 0, wait reset
to None, ignore_release armed when the timeout classified a long press. -/
def timeoutState (s : KeyState) : KeyState :=
  ⟨0, none, if s.click_count = 0 then true else s.ignore_release⟩

/-- Processing one delivered edge event (misc.py lines 144-161): a press
with click_count 0 arms the long-press wait; a release is swallowed by a
pending ignore_release, otherwise increments click_count, arming the
double-click wait on the first click and yielding a double click when the
count reaches 2 while the double-click wait is armed. Returns the yielded
gestures (stamped with the edge time) and the new state. -/
def deliver (tlp tdc : ℚ) (s : KeyState) (t : ℚ) (e : Edge) :
    List (ℚ × String) × KeyState :=
  match e with
  | .falling =>
    if s.click_count = 0 then ([], ⟨s.click_count, some tlp, s.ignore_release⟩)
    else ([], s)
  | .rising =>
    if s.ignore_release then
      ([], ⟨s.click_count, s.wait, false⟩)
    else
      let cc := s.click_count + 1
      let w := if cc = 1 then some tdc else s.wait
      if cc = 2 ∧ w = some tdc then
        ([(t, event_double)], ⟨0, none, s.ignore_release⟩)
      else
        ([], ⟨cc, w, s.ignore_release⟩)

/-- The while-True loop of read_key_events (misc.py lines 133-161) run
over a finite timed trace, parameterised by the two configured durations
time_long_press (tlp) and time_double_click (tdc). With no pending events
an armed wait times out once and the loop then blocks forever, so the run
ends; with a pending event the wait either delivers it or times out first
and delivers it on the following blocking call. -/
def read_key_events (tlp tdc : ℚ) (s : KeyState) (now : ℚ) :
    List (ℚ × Edge) → List (ℚ × String) × KeyState
  | [] =>
    match s.wait with
    | none => ([], s)
    | some w => (timeoutYields s (now + w), timeoutState s)
  | (t, e) :: rest =>
    match s.wait with
    | none =>
      let d := deliver tlp tdc s t e
      let r := read_key_events tlp tdc d.2 t rest
      (d.1 ++ r.1, r.2)
    | some w =>
      if t ≤ now + w then
        let d := deliver tlp tdc s t e
        let r := read_key_events tlp tdc d.2 t rest
        (d.1 ++ r.1, r.2)
      else
        let d := deliver tlp tdc (timeoutState s) t e
        let r := read_key_events tlp tdc d.2 t rest
        (timeoutYields s (now + w) ++ d.1 ++ r.1, r.2)

/-! ## Page scheduler (oled.py lines 108-133) -/

/-- One render action: slider advances and paints page i (oled.py lines
110-116), refresh repaints the current page i (oled.py lines 118-121). -/
inductive Render
  | page (i : ℤ)
  | refresh (i : ℤ)
deriving DecidableEq, Repr

/-- The page index update of slider (oled.py lines 112-113):
idx += 1; idx %= 3. -/
def sliderStep (idx : ℤ) : ℤ := (idx + 1) % 3

/-- The state carried across iterations of auto_slider: the global page
index idx and the local slide flag. -/
structure SchedState where
  idx : ℤ
  slide : Bool
deriving DecidableEq, Repr

/-- The state on entry to auto_slider: idx = -1 (oled.py line 108) and
slide = True (oled.py line 125). -/
def auto_slider_init : SchedState := ⟨-1, true⟩

/-- The while-True loop of auto_slider (oled.py lines 123-133) run over a
finite trace of wait outcomes: auto is conf[slider][auto], and each list
entry is whether the forced-advance event was set when the corresponding
iteration finished its wait (slide_event.is_set() after the clear and the
timed wait). Each iteration renders (advancing exactly when auto or the
slide flag holds) and then stores the wait outcome as the next slide flag. -/
def auto_slider (auto : Bool) : SchedState → List Bool → List Render
  | _, [] => []
  | s, sig :: rest =>
    if auto || s.slide then
      .page (sliderStep s.idx) :: auto_slider auto ⟨sliderStep s.idx, sig⟩ rest
    else
      .refresh s.idx :: auto_slider auto ⟨s.idx, sig⟩ rest

/-! ## Theorems -/

/-- Closed form of fan_temp2dc: nested conditionals, highest level first. -/
theorem fan_temp2dc_eq (c : FanConf) (t : ℚ) :
    fan_temp2dc c t =
      duty2dc (if c.lv3 ≤ t then 1
        else if c.lv2 ≤ t then 0.75
        else if c.lv1 ≤ t then 0.5
        else if c.lv0 ≤ t then 0.25
        else FAN_DUTY_OFF) := by
  simp [fan_temp2dc, fanFirstMatch, lv2dc, fanLookup]

/-- C1 (counterexample): with the default thresholds, fan_temp2dc at
temperature 30 returns 1, not the claimed 0.0: the source passes the
matched fraction through duty2dc, so the return value is inverted. -/
theorem fan_temp2dc_at_30_not_zero_cex :
    fan_temp2dc defaultFanConf 30 = 1 ∧ (1 : ℚ) ≠ 0 := by
  constructor
  · norm_num [fan_temp2dc_eq, defaultFanConf, duty2dc, FAN_DUTY_OFF]
  · norm_num

/-- C1 (amended): with the default thresholds 35/40/45/50, fan_temp2dc
returns 0.5 at temperature 42 and returns duty2dc FAN_DUTY_OFF = 1.0 at
temperature 30: the returned value is the inverted fraction, so at the
boundary 1.0 means fan off and 0.0 means fan full speed, since
duty2dc FAN_DUTY_OFF = 1 and duty2dc FAN_DUTY_ON = 0. -/
theorem fan_temp2dc_default_values :
    fan_temp2dc defaultFanConf 42 = 0.5 ∧
    fan_temp2dc defaultFanConf 30 = duty2dc FAN_DUTY_OFF ∧
    duty2dc FAN_DUTY_OFF = 1 ∧ duty2dc FAN_DUTY_ON = 0 := by
  refine ⟨?_, ?_, ?_, ?_⟩ <;>
    norm_num [fan_temp2dc_eq, defaultFanConf, duty2dc, FAN_DUTY_OFF, FAN_DUTY_ON]

/-- C2 (counterexample): fan_temp2dc is not monotonic non-decreasing in
the temperature: with the default table, 30 is at most 42 yet
fan_temp2dc 30 = 1 exceeds fan_temp2dc 42 = 0.5. -/
theorem fan_temp2dc_not_monotone_cex :
    (30 : ℚ) ≤ 42 ∧
    ¬ fan_temp2dc defaultFanConf 30 ≤ fan_temp2dc defaultFanConf 42 := by
  constructor
  · norm_num
  · norm_num [fan_temp2dc_eq, defaultFanConf, duty2dc, FAN_DUTY_OFF]

/-- C2 (amended): for every fixed threshold table, fan_temp2dc is
monotonic non-INCREASING in the temperature (the returned value is the
inverted fraction, so the underlying fan speed 1 - fan_temp2dc is
non-decreasing), and for every temperature strictly below all four
thresholds it returns the off duty value duty2dc FAN_DUTY_OFF. -/
theorem fan_temp2dc_antitone_and_off (c : FanConf) (t1 t2 t : ℚ)
    (h : t1 ≤ t2) (h0 : t < c.lv0) (h1 : t < c.lv1) (h2 : t < c.lv2)
    (h3 : t < c.lv3) :
    fan_temp2dc c t2 ≤ fan_temp2dc c t1 ∧
    fan_temp2dc c t = duty2dc FAN_DUTY_OFF := by
  constructor
  · rw [fan_temp2dc_eq, fan_temp2dc_eq]
    unfold duty2dc FAN_DUTY_OFF
    split_ifs <;> linarith
  · rw [fan_temp2dc_eq, if_neg (not_le.mpr h3), if_neg (not_le.mpr h2),
      if_neg (not_le.mpr h1), if_neg (not_le.mpr h0)]

/-- C2 (witness): the amended theorem applied to the default table at
temperatures 30, 42 and 20. -/
theorem fan_temp2dc_antitone_and_off_witness :
    fan_temp2dc defaultFanConf 42 ≤ fan_temp2dc defaultFanConf 30 ∧
    fan_temp2dc defaultFanConf 20 = duty2dc FAN_DUTY_OFF :=
  fan_temp2dc_antitone_and_off defaultFanConf 30 42 20 (by norm_num)
    (by norm_num [defaultFanConf]) (by norm_num [defaultFanConf])
    (by norm_num [defaultFanConf]) (by norm_num [defaultFanConf])

/-- C8: fan_temp2dc agrees with the highest-first first-match reference
fanDutySpec (levels evaluated lv3, lv2, lv1, lv0, the first level whose
threshold is at most the temperature determines the fraction, no
blending), and the returned value always lies in the interval from 0 to 1. -/
theorem fan_temp2dc_highest_first_bounded (c : FanConf) (t : ℚ) :
    fan_temp2dc c t = fanDutySpec c t ∧
    0 ≤ fan_temp2dc c t ∧ fan_temp2dc c t ≤ 1 := by
  refine ⟨by rw [fan_temp2dc_eq, fanDutySpec], ?_, ?_⟩ <;>
    · rw [fan_temp2dc_eq]
      unfold duty2dc FAN_DUTY_OFF
      split_ifs <;> norm_num

/-- C9: whenever the parse of the configuration file raises, read_conf
swallows the error and returns exactly the documented defaults:
thresholds 35/40/45/50, click=slider, twice=switch, press=none,
double-click window 0.7 s, long press 1.8 s, slider auto on, slider
interval 10 s. -/
theorem read_conf_failure_defaults (cfg : CfgFile) (e : Unit)
    (h : parse_conf cfg = .error e) :
    read_conf cfg = default_conf ∧
    default_conf.fan_lv0 = 35 ∧ default_conf.fan_lv1 = 40 ∧
    default_conf.fan_lv2 = 45 ∧ default_conf.fan_lv3 = 50 ∧
    default_conf.key_click = "slider" ∧
    default_conf.key_twice = "switch" ∧
    default_conf.key_press = "none" ∧
    default_conf.time_twice = 0.7 ∧ default_conf.time_press = 1.8 ∧
    default_conf.slider_auto = true ∧ default_conf.slider_time = 10 := by
  refine ⟨by simp [read_conf, h], ?_, ?_, ?_, ?_, ?_, ?_, ?_, ?_, ?_, ?_, ?_⟩ <;> rfl

/-- C9 (witness): the theorem applied to a configuration source whose
getters all raise. -/
theorem read_conf_failure_defaults_witness :
    read_conf failCfg = default_conf ∧
    default_conf.fan_lv0 = 35 ∧ default_conf.fan_lv1 = 40 ∧
    default_conf.fan_lv2 = 45 ∧ default_conf.fan_lv3 = 50 ∧
    default_conf.key_click = "slider" ∧
    default_conf.key_twice = "switch" ∧
    default_conf.key_press = "none" ∧
    default_conf.time_twice = 0.7 ∧ default_conf.time_press = 1.8 ∧
    default_conf.slider_auto = true ∧ default_conf.slider_time = 10 :=
  read_conf_failure_defaults failCfg () rfl

/-- C4: a single press-then-release pair separated by less than the
double-click window (with the window, as configured by default, no longer
than the long-press threshold), with no further edges, yields exactly one
click gesture, emitted exactly when the double-click window elapses after
the release, and the loop returns to its initial state. -/
theorem single_click_one_click (tlp tdc tp tr now : ℚ)
    (hsep : tr < tp + tdc) (hcfg : tdc ≤ tlp) :
    read_key_events tlp tdc keyInit now [(tp, .falling), (tr, .rising)] =
      ([(tr + tdc, event_single)], keyInit) := by
  have ha : tr ≤ tp + tlp := by linarith
  norm_num [read_key_events, deliver, keyInit, timeoutYields, timeoutState, ha]

/-- C4 (witness): a press at 0 and a release at 0.3 under the default
durations 1.8 and 0.7 yield one click at 0.3 + 0.7. -/
theorem single_click_one_click_witness :
    read_key_events 1.8 0.7 keyInit 0 [(0, .falling), (0.3, .rising)] =
      ([((0.3 : ℚ) + 0.7, event_single)], keyInit) :=
  single_click_one_click 1.8 0.7 0 0.3 0 (by norm_num) (by norm_num)

/-- C5: press-release-press-release with the first hold shorter than the
long-press threshold and both releases inside the double-click window
armed by the first release yields exactly one double-click gesture,
emitted at the second release, with no click and no long press. -/
theorem double_click_one_twice (tlp tdc t1 t2 t3 t4 now : ℚ)
    (h12 : t2 ≤ t1 + tlp) (h23 : t2 ≤ t3) (h34 : t3 ≤ t4)
    (h4 : t4 < t2 + tdc) :
    read_key_events tlp tdc keyInit now
      [(t1, .falling), (t2, .rising), (t3, .falling), (t4, .rising)] =
      ([(t4, event_double)], keyInit) := by
  have hb : t3 ≤ t2 + tdc := by linarith
  have hc : t4 ≤ t3 + tdc := by linarith
  norm_num [read_key_events, deliver, keyInit, timeoutYields, timeoutState,
    h12, hb, hc]

/-- C5 (witness): presses at 0 and 0.4, releases at 0.2 and 0.6 under the
default durations 1.8 and 0.7 yield one double click at 0.6. -/
theorem double_click_one_twice_witness :
    read_key_events 1.8 0.7 keyInit 0
      [(0, .falling), (0.2, .rising), (0.4, .falling), (0.6, .rising)] =
      ([((0.6 : ℚ), event_double)], keyInit) :=
  double_click_one_twice 1.8 0.7 0 0.2 0.4 0.6 0 (by norm_num) (by norm_num)
    (by norm_num) (by norm_num)

/-- C6: a press held past the long-press threshold yields exactly one
long-press gesture at the timeout instant; the eventual release is
swallowed without a gesture and without incrementing the click counter
(the run ends in the initial state, with ignore_release consumed back to
false), and the ignore flag is one-shot: a further release after it is
consumed is counted normally and yields a click. -/
theorem long_press_one_press (tlp tdc t1 t2 t3 now : ℚ)
    (h : t1 + tlp < t2) :
    read_key_events tlp tdc keyInit now [(t1, .falling), (t2, .rising)] =
      ([(t1 + tlp, event_long)], keyInit) ∧
    read_key_events tlp tdc keyInit now
      [(t1, .falling), (t2, .rising), (t3, .rising)] =
      ([(t1 + tlp, event_long), (t3 + tdc, event_single)], keyInit) := by
  have hn : ¬ t2 ≤ t1 + tlp := by linarith
  constructor <;>
    norm_num [read_key_events, deliver, keyInit, timeoutYields, timeoutState, hn]

/-- C6 (witness): a press at 0 held past 1.8 with its release at 2, and a
stray further release at 2.5, under the default durations. -/
theorem long_press_one_press_witness :
    read_key_events 1.8 0.7 keyInit 0 [(0, .falling), (2, .rising)] =
      ([((0 : ℚ) + 1.8, event_long)], keyInit) ∧
    read_key_events 1.8 0.7 keyInit 0
      [(0, .falling), (2, .rising), (2.5, .rising)] =
      ([((0 : ℚ) + 1.8, event_long), ((2.5 : ℚ) + 0.7, event_single)], keyInit) :=
  long_press_one_press 1.8 0.7 0 2 2.5 0 (by norm_num)

/-- C7 (counterexample): with window 0.7, first release at 0.0 and second
release at 0.9, the classifier does NOT always emit two clicks: when the
second press arrives at 0.5, inside the window, the blocking wait is
restarted by that edge, so the window never times out and a single
double-click is emitted at 0.9 instead. -/
theorem early_second_press_twice_cex :
    (read_key_events 1.8 0.7 keyInit 0
      [(-0.5, .falling), (0, .rising), (0.5, .falling), (0.9, .rising)]).1 =
      [(0.9, event_double)] ∧ event_double ≠ event_single := by
  constructor
  · norm_num [read_key_events, deliver, keyInit, timeoutYields, timeoutState]
  · simp [event_double, event_single]

/-- C7 (amended): with window 0.7 and long press 1.8, a release at 0.0
followed by a second release at 0.5 yields one double click; a release at
0.0 with the second press arriving only after the 0.7 window has timed
out (at 0.8) and the second release at 0.9 yields two separate clicks,
the first at the 0.7 timeout, the classifier being re-armed independently
for the second press. If instead the second press arrives inside the
window the wait restarts and a double click results (see the
counterexample). -/
theorem double_click_window_scenarios :
    read_key_events 1.8 0.7 keyInit 0
      [(-0.5, .falling), (0, .rising), (0.3, .falling), (0.5, .rising)] =
      ([(0.5, event_double)], keyInit) ∧
    read_key_events 1.8 0.7 keyInit 0
      [(-0.5, .falling), (0, .rising), (0.8, .falling), (0.9, .rising)] =
      ([(0.7, event_single), (1.6, event_single)], keyInit) := by
  constructor <;>
    norm_num [read_key_events, deliver, keyInit, timeoutYields, timeoutState]

/-- C3 (counterexample): on the very first iteration of auto_slider, with
auto-rotation disabled and no forced-advance ever signaled, the scheduler
still advances and renders page 0 instead of re-rendering the current
page, because the slide flag starts true. -/
theorem auto_slider_first_iteration_cex :
    auto_slider false auto_slider_init [false] = [Render.page 0] ∧
    Render.page 0 ≠ Render.refresh (-1) := by
  constructor
  · simp [auto_slider, auto_slider_init, sliderStep]
  · simp

/-- C3 (amended): on every iteration of auto_slider, if auto-rotation is
enabled OR the slide flag is set — the flag being true on the first
iteration and thereafter equal to whether a forced-advance was signaled
during the previous wait — the page index advances by one modulo 3 and
the new page is rendered; otherwise the current page is re-rendered
without changing the index; the signal is cleared and the wait outcome
becomes the next iteration's slide flag. -/
theorem auto_slider_iteration_spec (auto : Bool) (i : ℤ) (sl sig : Bool)
    (rest : List Bool) :
    auto_slider auto ⟨i, sl⟩ (sig :: rest) =
      (if auto || sl then Render.page ((i + 1) % 3) else Render.refresh i) ::
        auto_slider auto ⟨(if auto || sl then (i + 1) % 3 else i), sig⟩ rest ∧
    auto_slider_init.slide = true := by
  constructor
  · by_cases h : auto || sl <;> simp [auto_slider, sliderStep, h]
  · rfl

/-- C10: on the very first iteration auto_slider always advances from the
initial index -1 to page 0 and renders it, for every auto-rotation
setting and wait outcome, because the initial state has index -1 and the
slide flag true. -/
theorem auto_slider_first_iteration (auto sig : Bool) (rest : List Bool) :
    auto_slider auto auto_slider_init (sig :: rest) =
      Render.page 0 :: auto_slider auto ⟨0, sig⟩ rest ∧
    auto_slider_init.idx = -1 ∧ auto_slider_init.slide = true := by
  refine ⟨?_, rfl, rfl⟩
  simp [auto_slider, auto_slider_init, sliderStep]

end RockPi
